import Mathlib

/-!
# Verification of the ptvtracker-data writer core

A shallow embedding of the version store, realtime processor, static
parser/importer, consumer fetch path and maintenance cleanup of the
ptvtracker-data repository, with theorems settling the frozen claims
C1..C10 about them.

Conventions:
* SQL tables are Lean lists of row structures; a transaction is modelled by
  computing the updated lists and returning either the committed lists or,
  on any error, the original ones (`tx.Rollback`).
* Go `time.Time` values are modelled as `Int` epoch seconds; machine
  integers (`int32`) are `Int` with an explicit wrap where overflow could
  matter.
* Fallible Go functions return `Option`/`Except`; `sql.Null*` columns are
  `Option` values (`none` = SQL NULL).
-/

namespace PTV

/-! ## Version store (internal/common/db/version_checker.go)

One row of `gtfs.versions`.  `created_at` / `updated_at` are epoch seconds.
-/

structure VersionRow where
  version_id : Nat
  version_name : String
  created_at : Int
  updated_at : Int
  is_active : Bool
  source_url : String
  description : String
deriving Repr, DecidableEq

/-- The `gtfs.versions` table. -/
abbrev VersionStore := List VersionRow

/-- `UPDATE gtfs.versions SET is_active = false WHERE is_active = true`:
    every row ends up inactive (rows already inactive are untouched, which
    coincides with mapping the flag to `false` everywhere). -/
def deactivateAll (s : VersionStore) : VersionStore :=
  s.map (fun r => { r with is_active := false })

/-- The serial `version_id` the database would assign to the next
    `INSERT ... RETURNING version_id`: one more than the largest id in use. -/
def freshVersionId (s : VersionStore) : Nat :=
  (s.map (·.version_id)).foldr max 0 + 1

/-- `GetActiveVersion`: `SELECT ... WHERE is_active = true LIMIT 1`;
    `none` models the `sql.ErrNoRows` branch (returns `nil, nil`). -/
def GetActiveVersion (s : VersionStore) : Option VersionRow :=
  (s.filter (fun r => r.is_active)).head?

/-- `HasNewerVersion(lastModified)`: true iff there is no active version, or
    `lastModified` is strictly after the active version's `updated_at`. -/
def HasNewerVersion (s : VersionStore) (lastModified : Int) : Bool :=
  match GetActiveVersion s with
  | none => true
  | some active => decide (active.updated_at < lastModified)

/-- `CreateNewVersion(versionName, sourceURL, lastModified)`, embedded from
    version_checker.go lines 79-115.  Inside one transaction the Go code
    first runs `UPDATE gtfs.versions SET is_active = false WHERE is_active =
    true`, then inserts the new row with `is_active = false` and
    `updated_at = lastModified`, and commits.  `now` is the DB-assigned
    `created_at` of the new row.  Returns the committed store and the new
    version id. -/
def CreateNewVersion (s : VersionStore) (versionName sourceURL : String)
    (lastModified now : Int) : VersionStore × Nat :=
  let tx1 := deactivateAll s
  let vid := freshVersionId s
  let row : VersionRow :=
    { version_id := vid
      version_name := versionName
      created_at := now
      updated_at := lastModified
      is_active := false
      source_url := sourceURL
      description := "GTFS data imported from " ++ sourceURL }
  (tx1 ++ [row], vid)

/-- `ActivateVersion(versionID)`, embedded from version_checker.go lines
    117-151.  In one transaction: deactivate every row, then
    `UPDATE ... SET is_active = true WHERE version_id = $1`; if that update
    affected zero rows, return the error `version not found` and roll back
    (first component = original store); otherwise commit. -/
def activateUpdate (s : VersionStore) (vid : Nat) : VersionStore :=
  (deactivateAll s).map
    (fun r => if r.version_id = vid then { r with is_active := true } else r)

def ActivateVersion (s : VersionStore) (vid : Nat) : VersionStore × Option String :=
  if ((deactivateAll s).filter (fun r => r.version_id = vid)).length = 0 then
    (s, some "version not found")
  else (activateUpdate s vid, none)

/-- Invariant P1: at most one row of the versions table is active. -/
def atMostOneActive (s : VersionStore) : Prop :=
  (s.filter (fun r => r.is_active)).length ≤ 1

instance : DecidablePred atMostOneActive := fun s =>
  inferInstanceAs (Decidable ((s.filter (fun r => r.is_active)).length ≤ 1))

/-- `vid` is the unique active version of `s`. -/
def uniqueActive (s : VersionStore) (vid : Nat) : Prop :=
  (∃ r ∈ s, r.version_id = vid ∧ r.is_active = true) ∧
    ∀ r ∈ s, r.is_active = true → r.version_id = vid

end PTV

namespace PTV

/-! ### Helper lemmas about the version store -/

theorem deactivateAll_filter_active (s : VersionStore) :
    (deactivateAll s).filter (fun r => r.is_active) = [] := by
  induction s with
  | nil => rfl
  | cons r rs ih => simpa [deactivateAll, List.filter] using ih

theorem deactivateAll_inactive (s : VersionStore) :
    ∀ r ∈ deactivateAll s, r.is_active = false := by
  intro r hr
  rcases List.mem_map.mp hr with ⟨r0, _, h⟩
  rw [← h]

theorem deactivateAll_map_id (s : VersionStore) :
    (deactivateAll s).map (·.version_id) = s.map (·.version_id) := by
  simp [deactivateAll, List.map_map, Function.comp]

theorem filter_id_nil_iff (s : VersionStore) (vid : Nat) :
    ((deactivateAll s).filter (fun r => r.version_id = vid)).length = 0 ↔
      ∀ r ∈ s, r.version_id ≠ vid := by
  rw [List.length_eq_zero, List.filter_eq_nil]
  unfold deactivateAll
  constructor
  · intro h r hr hvid
    exact h { r with is_active := false } (List.mem_map_of_mem _ hr) (by simpa using hvid)
  · intro h r hr
    rcases List.mem_map.mp hr with ⟨r0, hr0, heq⟩
    subst heq
    simpa using h r0 hr0

theorem length_filter_id_le_one (s : VersionStore) (vid : Nat)
    (hids : (s.map (·.version_id)).Nodup) :
    (s.filter (fun r => r.version_id = vid)).length ≤ 1 := by
  induction s with
  | nil => simp
  | cons r rs ih =>
    rcases List.nodup_cons.mp hids with ⟨hnot, hnd⟩
    by_cases hid : r.version_id = vid
    · have hz : (rs.filter (fun x => x.version_id = vid)).length = 0 := by
        rw [List.length_eq_zero, List.filter_eq_nil]
        intro x hx hxv
        simp only [decide_eq_true_eq] at hxv
        apply hnot
        show r.version_id ∈ rs.map (·.version_id)
        rw [hid, ← hxv]
        exact List.mem_map_of_mem _ hx
      rw [List.filter_cons_of_pos (by simpa using hid)]
      simp [hz]
    · rw [List.filter_cons_of_neg (by simpa using hid)]
      exact ih hnd

theorem activate_map_filter (t : VersionStore) (vid : Nat)
    (hall : ∀ r ∈ t, r.is_active = false) :
    ((t.map (fun r => if r.version_id = vid then { r with is_active := true } else r)).filter
        (fun r => r.is_active)).length =
      (t.filter (fun r => r.version_id = vid)).length := by
  induction t with
  | nil => rfl
  | cons r rs ih =>
    have hr := hall r (List.mem_cons_self _ _)
    have ih' := ih (fun x hx => hall x (List.mem_cons_of_mem _ hx))
    by_cases hid : r.version_id = vid
    · simp only [List.map_cons, if_pos hid]
      rw [List.filter_cons_of_pos (by simp), List.filter_cons_of_pos (by simpa using hid)]
      simp [ih']
    · simp only [List.map_cons, if_neg hid]
      rw [List.filter_cons_of_neg (by simp [hr]), List.filter_cons_of_neg (by simpa using hid)]
      exact ih'

/-- A concrete store with one active version (id 1), used to exhibit the
    C1 divergence. -/
def c1Store : VersionStore :=
  [{ version_id := 1, version_name := "v1", created_at := 100,
     updated_at := 100, is_active := true, source_url := "u",
     description := "d" }]

/-- C1: the claim says `CreateNewVersion` leaves the `is_active` flag of
    every pre-existing row unchanged, so the previously active version is
    still active afterwards.  The code's `CreateNewVersion` instead begins
    with `UPDATE gtfs.versions SET is_active = false WHERE is_active = true`:
    starting from a store whose version 1 is active, after
    `CreateNewVersion` no version is active at all — version 1 has been
    deactivated (its other columns untouched) and the new row (id 2) is
    inserted inactive with `updated_at = last_modified`. -/
theorem createNewVersion_deactivates_previous_active :
    ((CreateNewVersion c1Store "gtfs_new" "u2" 200 300).1.filter
        (fun r => r.is_active)).length = 0 ∧
    (∃ r ∈ (CreateNewVersion c1Store "gtfs_new" "u2" 200 300).1,
        r.version_id = 1 ∧ r.is_active = false ∧ r.updated_at = 100) ∧
    (∃ r ∈ (CreateNewVersion c1Store "gtfs_new" "u2" 200 300).1,
        r.version_id = 2 ∧ r.is_active = false ∧ r.updated_at = 200) := by
  decide

/-- C2: every mutating version-store operation preserves the at-most-one-
    active invariant (the remaining operations `GetActiveVersion` and
    `HasNewerVersion` are pure reads); `ActivateVersion` fails exactly when
    no row carries the requested id, leaves the store unchanged in that
    case (transaction rollback), and on success makes the target the unique
    active version. -/
theorem versionStore_invariant_and_activate
    (s : VersionStore) (vid : Nat)
    (hids : (s.map (·.version_id)).Nodup) :
    (∀ name url lm now, atMostOneActive (CreateNewVersion s name url lm now).1) ∧
    (((ActivateVersion s vid).2).isSome ↔ ∀ r ∈ s, r.version_id ≠ vid) ∧
    (((ActivateVersion s vid).2).isSome → (ActivateVersion s vid).1 = s) ∧
    ((ActivateVersion s vid).2 = none →
      uniqueActive (ActivateVersion s vid).1 vid ∧
        atMostOneActive (ActivateVersion s vid).1) := by
  refine ⟨?_, ?_, ?_, ?_⟩
  · intro name url lm now
    unfold CreateNewVersion atMostOneActive
    simp [List.filter_append, deactivateAll_filter_active, List.filter]
  · by_cases hz : ((deactivateAll s).filter (fun r => r.version_id = vid)).length = 0
    · rw [ActivateVersion, if_pos hz]
      simpa using (filter_id_nil_iff s vid).mp hz
    · rw [ActivateVersion, if_neg hz]
      simp only [Option.isSome_none, Bool.false_eq_true, false_iff]
      intro hall
      exact hz ((filter_id_nil_iff s vid).mpr hall)
  · by_cases hz : ((deactivateAll s).filter (fun r => r.version_id = vid)).length = 0
    · rw [ActivateVersion, if_pos hz]; intro _; rfl
    · rw [ActivateVersion, if_neg hz]; intro h; simp at h
  · intro hok
    by_cases hz : ((deactivateAll s).filter (fun r => r.version_id = vid)).length = 0
    · rw [ActivateVersion, if_pos hz] at hok; simp at hok
    · rw [ActivateVersion, if_neg hz] at hok ⊢
      refine ⟨⟨?_, ?_⟩, ?_⟩
      · have hne : (deactivateAll s).filter (fun r => r.version_id = vid) ≠ [] := by
          intro h; exact hz (by rw [h]; rfl)
        rcases List.exists_mem_of_ne_nil _ hne with ⟨r, hr⟩
        rcases List.mem_filter.mp hr with ⟨hmem, hid⟩
        simp only [decide_eq_true_eq] at hid
        refine ⟨{ r with is_active := true }, ?_, hid, rfl⟩
        unfold activateUpdate
        have hmm := List.mem_map_of_mem
          (fun r => if r.version_id = vid then { r with is_active := true } else r) hmem
        simpa [hid] using hmm
      · intro r hr hact
        unfold activateUpdate at hr
        rcases List.mem_map.mp hr with ⟨r0, hr0, heq⟩
        by_cases hid : r0.version_id = vid
        · rw [if_pos hid] at heq
          rw [← heq]
          exact hid
        · rw [if_neg hid] at heq
          subst heq
          rw [deactivateAll_inactive s r0 hr0] at hact
          exact absurd hact (by simp)
      · show atMostOneActive (activateUpdate s vid)
        unfold atMostOneActive activateUpdate
        rw [activate_map_filter (deactivateAll s) vid (deactivateAll_inactive s)]
        refine length_filter_id_le_one (deactivateAll s) vid ?_
        rw [deactivateAll_map_id]
        exact hids

/-- Witness for `versionStore_invariant_and_activate`: instantiated at
    `c1Store` and version id 1, whose activation succeeds. -/
theorem versionStore_invariant_and_activate_witness :
    uniqueActive (ActivateVersion c1Store 1).1 1 ∧
      atMostOneActive (ActivateVersion c1Store 1).1 :=
  (versionStore_invariant_and_activate c1Store 1 (by decide)).2.2.2 (by decide)

end PTV

namespace PTV

/-! ## Schedule-version cleanup (maintenance `CleanupOldGTFSVersions`)

Embeds the direct-query variant of `CleanupOldGTFSVersions`: it selects
`SELECT version_id, version_name, created_at FROM gtfs.versions WHERE
is_active = false ORDER BY created_at DESC OFFSET $keep`, then deletes each
returned version in that order with `deleteGTFSVersion` (which removes the
rows of the 11 schedule tables carrying that `version_id` — stop_times,
trips, shapes, calendar_dates, calendar, transfers, pathways, levels,
stops, routes, agency — and finally the version row itself), logging an
error and continuing with the next version when one deletion fails.
Entity rows are tagged with their table name and `version_id`; since
`deleteGTFSVersion` ends with every tagged row of the version removed, the
per-table deletes collapse to one filter over the tagged rows. -/

structure GtfsEntityRow where
  table : String
  version_id : Nat
deriving Repr, DecidableEq

structure StaticStore where
  versions : VersionStore
  entities : List GtfsEntityRow
deriving Repr, DecidableEq

/-- `ORDER BY created_at DESC`: `a` may precede `b` iff `b.created_at ≤
    a.created_at`. -/
def createdDesc (a b : VersionRow) : Prop := b.created_at ≤ a.created_at

instance : DecidableRel createdDesc := fun a b =>
  inferInstanceAs (Decidable (b.created_at ≤ a.created_at))

instance : IsTotal VersionRow createdDesc :=
  ⟨fun a b => le_total b.created_at a.created_at⟩

instance : IsTrans VersionRow createdDesc :=
  ⟨fun _ _ _ h1 h2 => le_trans h2 h1⟩

/-- The rows the cleanup query returns: inactive versions ordered newest
    first, skipping the first `keep` of them (`OFFSET $1`). -/
def enumerateInactive (s : VersionStore) (keep : Nat) : List VersionRow :=
  (List.insertionSort createdDesc (s.filter (fun r => !r.is_active))).drop keep

/-- `deleteGTFSVersion`: remove every schedule row of the version, then the
    version row. -/
def deleteGTFSVersion (s : StaticStore) (vid : Nat) : StaticStore :=
  { versions := s.versions.filter (fun r => r.version_id ≠ vid)
    entities := s.entities.filter (fun e => e.version_id ≠ vid) }

/-- One iteration of the deletion loop; `fails vid` models
    `deleteGTFSVersion` returning an error for that version, in which case
    the loop records the failure and continues. -/
def cleanupStep (fails : Nat → Bool) (acc : StaticStore × List (Nat × Bool))
    (v : VersionRow) : StaticStore × List (Nat × Bool) :=
  if fails v.version_id then (acc.1, acc.2 ++ [(v.version_id, false)])
  else (deleteGTFSVersion acc.1 v.version_id, acc.2 ++ [(v.version_id, true)])

/-- `CleanupOldGTFSVersions(keepInactiveVersions)`: returns the final store
    and the per-version outcome list in processing order. -/
def cleanupOldGTFSVersions (s : StaticStore) (keep : Nat) (fails : Nat → Bool) :
    StaticStore × List (Nat × Bool) :=
  (enumerateInactive s.versions keep).foldl (cleanupStep fails) (s, [])

/-- `vid` survives the cleanup pass over selection `sel`: it is not a
    selected version whose deletion succeeded. -/
def survivesCleanup (sel : List VersionRow) (fails : Nat → Bool) (vid : Nat) : Bool :=
  !(sel.any (fun v => v.version_id = vid && !fails v.version_id))

theorem cleanup_fold_results (sel : List VersionRow) (fails : Nat → Bool)
    (st : StaticStore) (acc : List (Nat × Bool)) :
    (sel.foldl (cleanupStep fails) (st, acc)).2 =
      acc ++ sel.map (fun v => (v.version_id, !fails v.version_id)) := by
  induction sel generalizing st acc with
  | nil => simp
  | cons v rest ih =>
    by_cases hf : fails v.version_id <;>
      simp [cleanupStep, hf, ih]

theorem survivesCleanup_cons (v : VersionRow) (sel : List VersionRow)
    (fails : Nat → Bool) (vid : Nat) :
    survivesCleanup (v :: sel) fails vid =
      ((!(v.version_id = vid && !fails v.version_id)) && survivesCleanup sel fails vid) := by
  simp [survivesCleanup, List.any_cons]

theorem cleanup_fold_store (sel : List VersionRow) (fails : Nat → Bool)
    (st : StaticStore) (acc : List (Nat × Bool)) :
    (sel.foldl (cleanupStep fails) (st, acc)).1 =
      { versions := st.versions.filter (fun r => survivesCleanup sel fails r.version_id)
        entities := st.entities.filter (fun e => survivesCleanup sel fails e.version_id) } := by
  induction sel generalizing st acc with
  | nil =>
    simp only [List.foldl_nil]
    cases st
    simp [survivesCleanup]
  | cons v rest ih =>
    rw [List.foldl_cons]
    by_cases hf : fails v.version_id
    · rw [show cleanupStep fails (st, acc) v = (st, acc ++ [(v.version_id, false)]) by
        simp [cleanupStep, hf]]
      rw [ih]
      congr 1 <;>
        · apply List.filter_congr
          intro x _
          simp [survivesCleanup_cons, hf]
    · rw [show cleanupStep fails (st, acc) v =
          (deleteGTFSVersion st v.version_id, acc ++ [(v.version_id, true)]) by
        simp [cleanupStep, hf]]
      rw [ih]
      unfold deleteGTFSVersion
      congr 1 <;>
        · rw [List.filter_filter]
          apply List.filter_congr
          intro x _
          simp only [survivesCleanup_cons, hf]
          by_cases hx : v.version_id = x.version_id <;> simp [hx, eq_comm]

/-- Three inactive versions, oldest first by `created_at`. -/
def c7Store : StaticStore :=
  { versions :=
      [ { version_id := 1, version_name := "a", created_at := 10,
          updated_at := 10, is_active := false, source_url := "", description := "" },
        { version_id := 2, version_name := "b", created_at := 20,
          updated_at := 20, is_active := false, source_url := "", description := "" },
        { version_id := 3, version_name := "c", created_at := 30,
          updated_at := 30, is_active := false, source_url := "", description := "" } ]
    entities := [] }

/-- C7 counterexample: with three inactive versions created at 10 < 20 < 30
    and `keep = 1`, the cleanup processes the selected versions in the order
    of the `created_at DESC` enumeration — version 2 (newer) before
    version 1 (older) — not in the oldest-first order the claim states. -/
theorem cleanupOldGTFSVersions_not_oldest_first :
    ((cleanupOldGTFSVersions c7Store 1 (fun _ => false)).2.map Prod.fst = [2, 1]) ∧
    ((cleanupOldGTFSVersions c7Store 1 (fun _ => false)).2.map Prod.fst ≠ [1, 2]) := by
  decide

/-- C7 (amended): one cleanup run selects exactly the inactive versions
    other than the `keep` newest by `created_at` (the enumeration is a
    permutation-split of the inactive rows into the `keep` newest and the
    rest, every kept row at least as new as every selected one), destroys
    the selected versions in newest-first (`created_at` descending) order,
    records an outcome for every selected version even when some deletions
    fail (continuing after a per-version error), and removes from the store
    exactly the rows of the selected versions whose deletion succeeded. -/
theorem cleanupOldGTFSVersions_spec (s : StaticStore) (keep : Nat) (fails : Nat → Bool) :
    ((List.insertionSort createdDesc (s.versions.filter (fun r => !r.is_active))).take keep ++
        enumerateInactive s.versions keep).Perm
      (s.versions.filter (fun r => !r.is_active)) ∧
    (∀ v ∈ enumerateInactive s.versions keep,
      ∀ w ∈ (List.insertionSort createdDesc (s.versions.filter (fun r => !r.is_active))).take keep,
        v.created_at ≤ w.created_at) ∧
    (enumerateInactive s.versions keep).Sorted createdDesc ∧
    ((cleanupOldGTFSVersions s keep fails).2 =
      (enumerateInactive s.versions keep).map (fun v => (v.version_id, !fails v.version_id))) ∧
    ((cleanupOldGTFSVersions s keep fails).1.versions =
      s.versions.filter
        (fun r => survivesCleanup (enumerateInactive s.versions keep) fails r.version_id)) ∧
    ((cleanupOldGTFSVersions s keep fails).1.entities =
      s.entities.filter
        (fun e => survivesCleanup (enumerateInactive s.versions keep) fails e.version_id)) := by
  have hsorted : (List.insertionSort createdDesc
      (s.versions.filter (fun r => !r.is_active))).Sorted createdDesc :=
    List.sorted_insertionSort createdDesc _
  refine ⟨?_, ?_, ?_, ?_, ?_, ?_⟩
  · rw [show (List.insertionSort createdDesc (s.versions.filter (fun r => !r.is_active))).take keep ++
        enumerateInactive s.versions keep =
        List.insertionSort createdDesc (s.versions.filter (fun r => !r.is_active)) from by
      unfold enumerateInactive; exact List.take_append_drop _ _]
    exact List.perm_insertionSort createdDesc _
  · intro v hv w hw
    have hpw : (List.insertionSort createdDesc
        (s.versions.filter (fun r => !r.is_active))).Pairwise createdDesc := hsorted
    rw [← List.take_append_drop keep
      (List.insertionSort createdDesc (s.versions.filter (fun r => !r.is_active)))] at hpw
    exact (List.pairwise_append.mp hpw).2.2 w hw v hv
  · exact hsorted.sublist (List.drop_sublist _ _)
  · exact cleanup_fold_results _ fails s []
  · rw [show (cleanupOldGTFSVersions s keep fails).1 =
        (List.foldl (cleanupStep fails) (s, ([] : List (Nat × Bool)))
          (enumerateInactive s.versions keep)).1 from rfl,
      cleanup_fold_store]
  · rw [show (cleanupOldGTFSVersions s keep fails).1 =
        (List.foldl (cleanupStep fails) (s, ([] : List (Nat × Bool)))
          (enumerateInactive s.versions keep)).1 from rfl,
      cleanup_fold_store]

end PTV

namespace PTV

/-! ## Import / cleanup mutual exclusion (maintenance scheduler `importLock`)

The claim concerns the reader/writer lock `importLock` of the maintenance
`CleanupScheduler`.  In the source:

* `LockForImport` (write side) and `UnlockAfterImport` exist on the
  scheduler but have no caller anywhere in the repository; in particular
  the static import cycle `checkAndUpdate` (scraper/scheduler.go) performs
  `CreateNewVersion`, the per-source bulk imports and `ActivateVersion`
  without touching the lock.
* `performStaticCleanup` / `performRealtimeCleanup` call
  `canPerformCleanup`, which takes the READ side, reads the
  `isImportInProgress` flag and releases the read lock when it returns
  (`defer s.importLock.RUnlock()`), and only afterwards runs the mutating
  cleanup (`CleanupOldGTFSVersions` / realtime truncation).

We model each routine as its trace of lock and mutation events, exactly in
program order, and show (a) the import trace contains no lock acquisition
at all, (b) the cleanup mutation starts at read-lock depth 0, and (c) a
lock-discipline-respecting interleaving exists in which the import
mutation interval lies strictly inside the cleanup mutation interval, so
the claimed disjointness does not hold. -/

inductive LockEvent
  | acqRead | relRead | acqWrite | relWrite
  | importMutStart | importMutEnd
  | cleanupMutStart | cleanupMutEnd
deriving Repr, DecidableEq

/-- Events of one import cycle (`checkAndUpdate`): the mutating phase
    (create version, bulk import, activate) begins and ends with no lock
    operation around it — `LockForImport` is never called. -/
def importEvents : List LockEvent :=
  [LockEvent.importMutStart, LockEvent.importMutEnd]

/-- Events of one static-cleanup cycle (`performStaticCleanup`):
    `canPerformCleanup` acquires and releases the read lock, then
    `CleanupOldGTFSVersions` mutates. -/
def cleanupEvents : List LockEvent :=
  [LockEvent.acqRead, LockEvent.relRead,
   LockEvent.cleanupMutStart, LockEvent.cleanupMutEnd]

/-- `interleaves as bs cs`: `cs` is an order-preserving merge of `as` and
    `bs` (a concurrent schedule of the two tasks). -/
def interleaves : List LockEvent → List LockEvent → List LockEvent → Bool
  | [], [], [] => true
  | _, _, [] => false
  | as, bs, c :: cs =>
    (match as with
     | a :: as2 => a = c && interleaves as2 bs cs
     | [] => false) ||
    (match bs with
     | b :: bs2 => b = c && interleaves as bs2 cs
     | [] => false)

/-- Reader/writer-lock discipline: a schedule is valid when reads are
    acquired only while no writer holds the lock, the writer only when
    there is no reader and no writer, and releases match holds. -/
def rwValidFrom : Nat → Bool → List LockEvent → Bool
  | _, _, [] => true
  | r, w, e :: es =>
    match e with
    | LockEvent.acqRead => !w && rwValidFrom (r + 1) w es
    | LockEvent.relRead => decide (0 < r) && rwValidFrom (r - 1) w es
    | LockEvent.acqWrite => !w && decide (r = 0) && rwValidFrom r true es
    | LockEvent.relWrite => w && rwValidFrom r false es
    | _ => rwValidFrom r w es

def rwValid (es : List LockEvent) : Bool := rwValidFrom 0 false es

/-- The read-lock depth at the moment `target` first occurs in a trace. -/
def readDepthBefore (target : LockEvent) : Nat → List LockEvent → Option Nat
  | _, [] => none
  | r, e :: es =>
    if e = target then some r
    else
      match e with
      | LockEvent.acqRead => readDepthBefore target (r + 1) es
      | LockEvent.relRead => readDepthBefore target (r - 1) es
      | _ => readDepthBefore target r es

/-- The import mutation begins strictly inside the cleanup mutation
    interval. -/
def overlapping (sched : List LockEvent) : Bool :=
  match sched.indexOf? LockEvent.cleanupMutStart,
      sched.indexOf? LockEvent.cleanupMutEnd,
      sched.indexOf? LockEvent.importMutStart with
  | some i, some j, some k => i < k && k < j
  | _, _, _ => false

/-- A concrete concurrent schedule: cleanup passes its lock check, starts
    mutating, and the whole import runs in the middle of the cleanup
    mutation. -/
def c8Schedule : List LockEvent :=
  [LockEvent.acqRead, LockEvent.relRead, LockEvent.cleanupMutStart,
   LockEvent.importMutStart, LockEvent.importMutEnd, LockEvent.cleanupMutEnd]

/-- C8: the claim requires the import to hold the write side of ImportLock
    for the whole mutating phase and every cleanup mutation to hold the
    read side, making the intervals disjoint.  In the code the import trace
    contains no lock acquisition at all (`LockForImport` has no callers),
    the cleanup mutation starts at read-lock depth 0 (the read lock is
    released when `canPerformCleanup` returns), and consequently the lock
    discipline admits a schedule in which the import mutation runs strictly
    inside the cleanup mutation interval. -/
theorem importLock_not_enforced :
    (LockEvent.acqWrite ∉ importEvents) ∧
    (LockEvent.acqRead ∉ importEvents) ∧
    readDepthBefore LockEvent.cleanupMutStart 0 cleanupEvents = some 0 ∧
    interleaves importEvents cleanupEvents c8Schedule = true ∧
    rwValid c8Schedule = true ∧
    overlapping c8Schedule = true := by
  decide

end PTV

namespace PTV

/-! ## Nested-archive handling (gtfs-static parser `ParseZip` and the
scraper scheduler's `checkAndUpdate`)

`ParseZip` scans the outer archive's entry names once; on the FIRST entry
whose name has suffix `/google_transit.zip` AND prefix `2/` it switches to
nested mode and parses only that single inner archive ("For metro source,
use folder 2 (Metropolitan Train) — TODO: Make this configurable"),
otherwise it parses the outer archive as a flat standard GTFS archive.
Its callback record carries no `source_id`, so no source id is passed to
the caller.  The per-source iteration lives in `checkAndUpdate` instead:
it matches every non-directory entry against `^(\d+)/google_transit\.zip$`,
extracts each and runs the Importer with the parsed decimal source id and
the one shared version id. -/

/-- `strings.HasPrefix`. -/
def strStartsWith (s pre : String) : Bool := pre.toList.isPrefixOf s.toList

/-- `strings.HasSuffix`. -/
def strEndsWith (s suf : String) : Bool :=
  suf.toList.reverse.isPrefixOf s.toList.reverse

/-- The nested-detection loop of `ParseZip` (parser.go lines 52-65): the
    first entry with suffix `/google_transit.zip` and prefix `2/`. -/
def findNestedFile : List String → Option String
  | [] => none
  | f :: fs =>
    if strEndsWith f "/google_transit.zip" && strStartsWith f "2/" then some f
    else findNestedFile fs

inductive ParseMode
  | nested (file : String)
  | standard
deriving Repr, DecidableEq

/-- Which way `ParseZip` parses an archive with the given entry names. -/
def parseZipMode (entries : List String) : ParseMode :=
  match findNestedFile entries with
  | some f => ParseMode.nested f
  | none => ParseMode.standard

/-- Decimal value of a digit string. -/
def digitsVal (cs : List Char) : Nat :=
  cs.foldl (fun acc c => acc * 10 + (c.toNat - 48)) 0

/-- The scheduler's `nestedZipRegex` match `^(\d+)/google_transit\.zip$`
    plus `strconv.Atoi` on the digit group (which cannot fail on a digit
    string): `some sourceID` when the entry name is a nonempty digit run
    followed by `/google_transit.zip`. -/
def nestedSourceId (name : String) : Option Nat :=
  let cs := name.toList
  let suf := ("/google_transit.zip").toList
  if suf.isSuffixOf cs then
    let d := cs.take (cs.length - suf.length)
    if !d.isEmpty && d.all Char.isDigit then some (digitsVal d) else none
  else none

/-- The source ids `checkAndUpdate` imports from an archive: every
    non-directory entry matching the nested pattern, in archive order. -/
def importedSources (entries : List (String × Bool)) : List Nat :=
  entries.filterMap (fun e => if e.2 then none else nestedSourceId e.1)

/-- The `(source_id, version_id)` pairs `checkAndUpdate` feeds to the
    Importer: one per matched entry, all against the shared version id. -/
def checkAndUpdateImports (entries : List (String × Bool)) (versionID : Nat) :
    List (Nat × Nat) :=
  (importedSources entries).map (fun sid => (sid, versionID))

theorem findNestedFile_some (entries : List String) (f : String)
    (h : findNestedFile entries = some f) :
    (strEndsWith f "/google_transit.zip" && strStartsWith f "2/") = true ∧
      f ∈ entries := by
  induction entries with
  | nil => simp [findNestedFile] at h
  | cons e es ih =>
    by_cases hc : (strEndsWith e "/google_transit.zip" && strStartsWith e "2/") = true
    · rw [findNestedFile, if_pos hc] at h
      cases h
      exact ⟨hc, List.mem_cons_self _ _⟩
    · rw [findNestedFile, if_neg hc] at h
      rcases ih h with ⟨h1, h2⟩
      exact ⟨h1, List.mem_cons_of_mem _ h2⟩

theorem findNestedFile_none (entries : List String)
    (h : ∀ f ∈ entries,
      (strEndsWith f "/google_transit.zip" && strStartsWith f "2/") ≠ true) :
    findNestedFile entries = none := by
  induction entries with
  | nil => rfl
  | cons e es ih =>
    rw [findNestedFile, if_neg (h e (List.mem_cons_self _ _))]
    exact ih (fun f hf => h f (List.mem_cons_of_mem _ hf))

/-- C4 counterexample: an archive whose nested entries are
    `1/google_transit.zip` and `3/google_transit.zip` — digit-prefixed, but
    not prefix `2/`.  `ParseZip` parses NONE of them as inner archives (it
    falls back to flat parsing of the outer archive), refuting "every
    digit-prefixed inner archive is parsed"; with a `2/` entry present,
    exactly that one entry is chosen. -/
theorem parseZip_only_fixed_prefix :
    parseZipMode ["1/google_transit.zip", "3/google_transit.zip"] =
      ParseMode.standard ∧
    parseZipMode ["3/google_transit.zip", "2/google_transit.zip"] =
      ParseMode.nested "2/google_transit.zip" := by
  decide

/-- C4 (amended): `ParseZip` switches to nested parsing only for the first
    entry with prefix `2/` and suffix `/google_transit.zip` (parsing just
    that inner archive, passing no source id), and parses the archive as
    flat when no such entry exists; it is the scraper scheduler's
    `checkAndUpdate` that iterates every `<digits>/google_transit.zip`
    entry, importing each with its parsed decimal source id against the
    one shared version id. -/
theorem parseZip_and_checkAndUpdate_sources (entries : List String)
    (dentries : List (String × Bool)) (versionID : Nat) :
    (∀ f, parseZipMode entries = ParseMode.nested f →
      (strEndsWith f "/google_transit.zip" && strStartsWith f "2/") = true ∧
        f ∈ entries) ∧
    ((∀ f ∈ entries,
        (strEndsWith f "/google_transit.zip" && strStartsWith f "2/") ≠ true) →
      parseZipMode entries = ParseMode.standard) ∧
    (∀ name sid, (name, false) ∈ dentries → nestedSourceId name = some sid →
      (sid, versionID) ∈ checkAndUpdateImports dentries versionID) ∧
    (∀ p ∈ checkAndUpdateImports dentries versionID, p.2 = versionID) := by
  refine ⟨?_, ?_, ?_, ?_⟩
  · intro f hf
    unfold parseZipMode at hf
    rcases hn : findNestedFile entries with _ | g
    · rw [hn] at hf; cases hf
    · rw [hn] at hf
      cases hf
      exact findNestedFile_some entries f hn
  · intro h
    unfold parseZipMode
    rw [findNestedFile_none entries h]
  · intro name sid hmem hsid
    unfold checkAndUpdateImports
    apply List.mem_map_of_mem
    unfold importedSources
    rw [List.mem_filterMap]
    exact ⟨(name, false), hmem, by simpa using hsid⟩
  · intro p hp
    unfold checkAndUpdateImports at hp
    rcases List.mem_map.mp hp with ⟨sid, _, heq⟩
    rw [← heq]

/-- Witness for `parseZip_and_checkAndUpdate_sources`: in an archive with
    entries `1/...` and `3/...`, source 3 is imported against version 7. -/
theorem parseZip_and_checkAndUpdate_sources_witness :
    (3, 7) ∈ checkAndUpdateImports
      [("1/google_transit.zip", false), ("3/google_transit.zip", false)] 7 :=
  (parseZip_and_checkAndUpdate_sources []
      [("1/google_transit.zip", false), ("3/google_transit.zip", false)] 7).2.2.1
    "3/google_transit.zip" 3 (by decide) (by decide)

end PTV

namespace PTV

/-! ## Realtime consumer fetch path (consumer `fetchFeed`)

`fetchFeed` for one endpoint, from the consumer source: it first takes one
token from the rate-limiter channel (failing with "rate limit exceeded"
when none arrives within 5 s), THEN checks the per-endpoint cache and
returns the cached message when the entry is younger than
`cache_expiration`, and only otherwise performs the HTTP request (adding
`If-None-Match` when a cached ETag exists; 304 returns the cached message;
non-200 is an error; a 200 body is decoded and cached).  The decoded
protobuf message is abstracted by a numeric identifier; the HTTP exchange
by an `HttpReply` oracle.  Mid-wait refills of the token channel are not
modelled: a token is available exactly when the channel is non-empty. -/

structure CacheEntry where
  feedMessage : Nat
  timestamp : Int
  etag : String
deriving Repr, DecidableEq

structure ConsumerState where
  tokens : Nat
  cache : Option CacheEntry
deriving Repr, DecidableEq

inductive HttpReply
  | transportError
  | notModified
  | status (code : Nat)
  | ok (body : Nat) (decodeOk : Bool) (etag : String)
deriving Repr, DecidableEq

inductive FetchOutcome
  | message (m : Nat)
  | fetchError (e : String)
deriving Repr, DecidableEq

structure FeedFetchResult where
  outcome : FetchOutcome
  state : ConsumerState
  httpAttempted : Bool
deriving Repr, DecidableEq

/-- The HTTP leg of `fetchFeed` (request, status handling, decode, cache
    update), entered only after a token was consumed and the cache found
    stale or empty. -/
def fetchHttp (now : Int) (st1 : ConsumerState) (reply : HttpReply) : FeedFetchResult :=
  match reply with
  | HttpReply.transportError =>
    { outcome := FetchOutcome.fetchError "failed to fetch feed"
      state := st1, httpAttempted := true }
  | HttpReply.notModified =>
    match st1.cache with
    | some e =>
      { outcome := FetchOutcome.message e.feedMessage
        state := st1, httpAttempted := true }
    | none =>
      { outcome := FetchOutcome.fetchError "HTTP error: 304"
        state := st1, httpAttempted := true }
  | HttpReply.status code =>
    { outcome := FetchOutcome.fetchError ("HTTP error: " ++ toString code)
      state := st1, httpAttempted := true }
  | HttpReply.ok body decodeOk etag =>
    if decodeOk then
      { outcome := FetchOutcome.message body
        state := { st1 with
          cache := some { feedMessage := body, timestamp := now, etag := etag } }
        httpAttempted := true }
    else
      { outcome := FetchOutcome.fetchError "failed to unmarshal protobuf"
        state := st1, httpAttempted := true }

/-- `fetchFeed`: token first, cache second, HTTP last. -/
def fetchFeed (cacheExpiration now : Int) (st : ConsumerState)
    (reply : HttpReply) : FeedFetchResult :=
  if st.tokens = 0 then
    { outcome := FetchOutcome.fetchError "rate limit exceeded"
      state := st, httpAttempted := false }
  else
    let st1 : ConsumerState := { st with tokens := st.tokens - 1 }
    match st.cache with
    | some e =>
      if now - e.timestamp < cacheExpiration then
        { outcome := FetchOutcome.message e.feedMessage
          state := st1, httpAttempted := false }
      else fetchHttp now st1 reply
    | none => fetchHttp now st1 reply

/-- State with 5 tokens and a cache entry 10 s old. -/
def c5State : ConsumerState :=
  { tokens := 5, cache := some { feedMessage := 42, timestamp := 100, etag := "e" } }

/-- C5 counterexample: with cache_expiration 30 s, a cache entry 10 s old
    and 5 tokens in the bucket, `fetchFeed` serves the cached message
    without an HTTP fetch — but the token count drops to 4: the token was
    consumed BEFORE the cache check, refuting "does not consume a
    rate-limiter token" when serving from fresh cache. -/
theorem fetchFeed_fresh_cache_consumes_token :
    (fetchFeed 30 110 c5State HttpReply.transportError).outcome =
      FetchOutcome.message 42 ∧
    (fetchFeed 30 110 c5State HttpReply.transportError).httpAttempted = false ∧
    (fetchFeed 30 110 c5State HttpReply.transportError).state.tokens = 4 := by
  decide

/-- C5 (amended): `fetchFeed` acquires a rate-limiter token first, before
    the cache check; when the bucket is empty the fetch fails with the
    rate-limit error without an HTTP attempt and without state change;
    when a token is available and the cache entry is younger than
    `cache_expiration` the cached message is returned synchronously with no
    HTTP attempt, but with the token already spent; an HTTP request is only
    ever attempted after a token was available. -/
theorem fetchFeed_token_before_cache (exp now : Int) (st : ConsumerState)
    (reply : HttpReply) :
    (st.tokens = 0 →
      (fetchFeed exp now st reply).outcome =
          FetchOutcome.fetchError "rate limit exceeded" ∧
        (fetchFeed exp now st reply).httpAttempted = false ∧
        (fetchFeed exp now st reply).state = st) ∧
    (∀ e, st.cache = some e → st.tokens ≠ 0 → now - e.timestamp < exp →
      (fetchFeed exp now st reply).outcome = FetchOutcome.message e.feedMessage ∧
        (fetchFeed exp now st reply).httpAttempted = false ∧
        (fetchFeed exp now st reply).state.tokens = st.tokens - 1) ∧
    ((fetchFeed exp now st reply).httpAttempted = true → st.tokens ≠ 0) := by
  refine ⟨?_, ?_, ?_⟩
  · intro hz
    simp [fetchFeed, hz]
  · intro e hc hnz hfresh
    simp [fetchFeed, if_neg hnz, hc, if_pos hfresh]
  · intro hattempt
    intro hz
    rw [fetchFeed, if_pos hz] at hattempt
    simp at hattempt

/-- Witness for `fetchFeed_token_before_cache` at `c5State`. -/
theorem fetchFeed_token_before_cache_witness :
    (fetchFeed 30 110 c5State HttpReply.transportError).outcome =
        FetchOutcome.message 42 ∧
      (fetchFeed 30 110 c5State HttpReply.transportError).httpAttempted = false ∧
      (fetchFeed 30 110 c5State HttpReply.transportError).state.tokens = 5 - 1 :=
  (fetchFeed_token_before_cache 30 110 c5State HttpReply.transportError).2.1
    { feedMessage := 42, timestamp := 100, etag := "e" }
    (by decide) (by decide) (by decide)

end PTV

namespace PTV

/-! ## Realtime store and processor (gtfs-realtime processor.go)

Rows of the `gtfs_rt` tables, keeping the columns the claims are about:
serial ids, parent references and `received_at`.  The remaining payload
columns do not affect row creation or deletion and are omitted; children
of one parent are therefore represented by their multiplicity.  Serial ids
are modelled per table by a `next*Id` counter. -/

structure FeedMessageRow where
  id : Nat
  timestamp : Int
  received_at : Int
  source_id : Nat
  version_id : Nat
  feed_type : String
deriving Repr, DecidableEq

structure VehiclePositionRow where
  feed_message_id : Nat
  entity_id : String
deriving Repr, DecidableEq

structure TripUpdateRow where
  trip_update_id : Nat
  feed_message_id : Nat
  entity_id : String
  trip_id : String
deriving Repr, DecidableEq

structure StopTimeUpdateRow where
  trip_update_id : Nat
deriving Repr, DecidableEq

structure AlertRow where
  alert_id : Nat
  feed_message_id : Nat
  entity_id : String
deriving Repr, DecidableEq

structure AlertChildRow where
  alert_id : Nat
  kind : String
deriving Repr, DecidableEq

structure RTStore where
  nextFeedMessageId : Nat
  nextTripUpdateId : Nat
  nextAlertId : Nat
  feedMessages : List FeedMessageRow
  vehiclePositions : List VehiclePositionRow
  tripUpdates : List TripUpdateRow
  stopTimeUpdates : List StopTimeUpdateRow
  alerts : List AlertRow
  alertActivePeriods : List AlertChildRow
  alertInformedEntities : List AlertChildRow
  alertTranslations : List AlertChildRow
deriving Repr, DecidableEq

def emptyRT : RTStore :=
  { nextFeedMessageId := 0, nextTripUpdateId := 0, nextAlertId := 0
    feedMessages := [], vehiclePositions := [], tripUpdates := []
    stopTimeUpdates := [], alerts := [], alertActivePeriods := []
    alertInformedEntities := [], alertTranslations := [] }

/-! Decoded feed-message content, keeping the fields that decide which rows
are generated: presence of the vehicle/position, of the trip descriptor's
trip id, of the alert, and child multiplicities. -/

structure TripDescriptor where
  trip_id : Option String
deriving Repr, DecidableEq

structure VehicleData where
  position : Option Unit
  trip : Option TripDescriptor
deriving Repr, DecidableEq

structure TripUpdateData where
  trip : Option TripDescriptor
  stopTimeUpdates : Nat
deriving Repr, DecidableEq

structure AlertData where
  activePeriods : Nat
  informedEntities : Nat
  translations : Nat
deriving Repr, DecidableEq

structure FeedEntity where
  entity_id : String
  vehicle : Option VehicleData
  tripUpdate : Option TripUpdateData
  alert : Option AlertData
deriving Repr, DecidableEq

structure FeedMsg where
  timestamp : Int
  entities : List FeedEntity
deriving Repr, DecidableEq

/-- The DB operations of one `processFeedMessage` transaction that can
    fail: the header insert, the per-feed-type entity bulk insert, the
    child-row inserts, and the final commit.  An oracle says which fail. -/
inductive InsertStep
  | headerIns
  | entityBulk
  | childBulk
  | txCommit
deriving Repr, DecidableEq

/-- `processVehiclePositionsBulk`: one row per entity that has a vehicle
    with a position; entities without are skipped. -/
def processVehiclePositionsBulk (oracle : InsertStep → Bool) (tx : RTStore)
    (headerId : Nat) (entities : List FeedEntity) : Option RTStore :=
  if oracle InsertStep.entityBulk then none
  else
    some { tx with
      vehiclePositions := tx.vehiclePositions ++
        entities.filterMap (fun e =>
          match e.vehicle with
          | some v =>
            match v.position with
            | some _ => some { feed_message_id := headerId, entity_id := e.entity_id }
            | none => none
          | none => none) }

/-- Entities that produce a trip-update row: those with a trip descriptor
    carrying a trip id. -/
def tuCandidates (entities : List FeedEntity) : List FeedEntity :=
  entities.filter (fun e =>
    match e.tripUpdate with
    | some tu =>
      match tu.trip with
      | some t => t.trip_id.isSome
      | none => false
    | none => false)

def entityTripId (e : FeedEntity) : String :=
  match e.tripUpdate with
  | some tu =>
    match tu.trip with
    | some t => t.trip_id.getD ""
    | none => ""
  | none => ""

/-- The trip-update rows of one message with their store-assigned serial
    ids, starting at `start`. -/
def assignTuIds (start headerId : Nat) (entities : List FeedEntity) :
    List TripUpdateRow :=
  (tuCandidates entities).enum.map (fun p =>
    { trip_update_id := start + p.1, feed_message_id := headerId
      entity_id := p.2.entity_id, trip_id := entityTripId p.2 })

/-- `processTripUpdatesBulk`: bulk-insert the trip-update rows, requery the
    table by `feed_message_id` to recover `entity_id → trip_update_id`,
    then bulk-insert the child stop-time updates keyed by the recovered
    ids. -/
def processTripUpdatesBulk (oracle : InsertStep → Bool) (tx : RTStore)
    (headerId : Nat) (entities : List FeedEntity) : Option RTStore :=
  if oracle InsertStep.entityBulk then none
  else
    let newRows := assignTuIds tx.nextTripUpdateId headerId entities
    let tx1 := { tx with
      nextTripUpdateId := tx.nextTripUpdateId + newRows.length
      tripUpdates := tx.tripUpdates ++ newRows }
    let mapping := fun eid =>
      ((tx1.tripUpdates.filter (fun r => r.feed_message_id = headerId)).find?
        (fun r => r.entity_id = eid)).map (·.trip_update_id)
    if oracle InsertStep.childBulk then none
    else
      some { tx1 with
        stopTimeUpdates := tx1.stopTimeUpdates ++
          entities.foldl (fun acc e =>
            match e.tripUpdate with
            | none => acc
            | some tu =>
              match mapping e.entity_id with
              | none => acc
              | some tuid =>
                acc ++ List.replicate tu.stopTimeUpdates { trip_update_id := tuid }) [] }

/-- The alert rows of one message with their serial ids. -/
def assignAlertIds (start headerId : Nat) (entities : List FeedEntity) :
    List AlertRow :=
  ((entities.filter (fun e => e.alert.isSome)).enum).map (fun p =>
    { alert_id := start + p.1, feed_message_id := headerId
      entity_id := p.2.entity_id })

/-- `processServiceAlertsBulk`: bulk-insert the alerts, requery
    `entity_id → alert_id`, then per alert insert its active periods,
    informed entities and translations row by row within the same
    transaction. -/
def processServiceAlertsBulk (oracle : InsertStep → Bool) (tx : RTStore)
    (headerId : Nat) (entities : List FeedEntity) : Option RTStore :=
  if oracle InsertStep.entityBulk then none
  else
    let newAlerts := assignAlertIds tx.nextAlertId headerId entities
    let tx1 := { tx with
      nextAlertId := tx.nextAlertId + newAlerts.length
      alerts := tx.alerts ++ newAlerts }
    let mapping := fun eid =>
      ((tx1.alerts.filter (fun r => r.feed_message_id = headerId)).find?
        (fun r => r.entity_id = eid)).map (·.alert_id)
    if oracle InsertStep.childBulk then none
    else
      some (entities.foldl (fun tx2 e =>
        match e.alert with
        | none => tx2
        | some a =>
          match mapping e.entity_id with
          | none => tx2
          | some aid =>
            { tx2 with
              alertActivePeriods := tx2.alertActivePeriods ++
                List.replicate a.activePeriods { alert_id := aid, kind := "active_period" }
              alertInformedEntities := tx2.alertInformedEntities ++
                List.replicate a.informedEntities { alert_id := aid, kind := "informed_entity" }
              alertTranslations := tx2.alertTranslations ++
                List.replicate a.translations { alert_id := aid, kind := "translation" } })
        tx1)

/-- The per-feed-type dispatch of `processFeedMessage`; `none` models the
    per-type processing (or an unknown feed type) erroring out. -/
def processEntities (oracle : InsertStep → Bool) (tx : RTStore) (headerId : Nat)
    (feedType : String) (entities : List FeedEntity) : Option RTStore :=
  if feedType = "vehicle_positions" then
    processVehiclePositionsBulk oracle tx headerId entities
  else if feedType = "trip_updates" then
    processTripUpdatesBulk oracle tx headerId entities
  else if feedType = "service_alerts" then
    processServiceAlertsBulk oracle tx headerId entities
  else none

/-- The tail of the transaction: a failed entity phase rolls back; commit
    either fails (rolling back to the pre-transaction store `s`) or
    publishes the buffered store. -/
def finishTx (oracle : InsertStep → Bool) (s : RTStore) (res : Option RTStore) :
    RTStore × Option String :=
  match res with
  | none => (s, some "failed to process entities")
  | some tx2 =>
    if oracle InsertStep.txCommit then (s, some "failed to commit transaction")
    else (tx2, none)

/-- `processFeedMessage`: resolve the source id and the cached active
    version, open a transaction, insert the header, process the entities by
    feed type, and commit; on any error return the original store (the
    deferred `tx.Rollback`) together with the error. -/
def processFeedMessage (sourceMapping : String → Option Nat)
    (activeVersion : Option Nat) (oracle : InsertStep → Bool) (s : RTStore)
    (endpointSource feedType : String) (msg : FeedMsg) (receivedAt : Int) :
    RTStore × Option String :=
  match sourceMapping endpointSource with
  | none => (s, some "unknown source")
  | some sourceID =>
    match activeVersion with
    | none => (s, some "failed to get version")
    | some versionID =>
      if oracle InsertStep.headerIns then (s, some "failed to insert feed message")
      else
        let headerId := s.nextFeedMessageId
        let tx1 := { s with
          nextFeedMessageId := headerId + 1
          feedMessages := s.feedMessages ++
            [{ id := headerId, timestamp := msg.timestamp
               received_at := receivedAt, source_id := sourceID
               version_id := versionID, feed_type := feedType }] }
        finishTx oracle s (processEntities oracle tx1 headerId feedType msg.entities)

/-- One `FeedResult` dequeued by the drainer, together with the failure
    oracle and `received_at` of its (potential) processing. -/
structure DrainItem where
  endpointSource : String
  feedType : String
  message : Option FeedMsg
  isError : Bool
  oracle : InsertStep → Bool
  receivedAt : Int

/-- One iteration of `processFeedResults`: errored or empty results are
    skipped with a log; a processing error leaves the store as rolled back;
    in every case the loop continues. -/
def drainStep (sourceMapping : String → Option Nat) (activeVersion : Option Nat)
    (s : RTStore) (item : DrainItem) : RTStore :=
  if item.isError then s
  else
    match item.message with
    | none => s
    | some m =>
      (processFeedMessage sourceMapping activeVersion item.oracle s
        item.endpointSource item.feedType m item.receivedAt).1

/-- The drainer loop over a finite batch of dequeued results. -/
def processFeedResults (sourceMapping : String → Option Nat)
    (activeVersion : Option Nat) (items : List DrainItem) (s : RTStore) : RTStore :=
  items.foldl (drainStep sourceMapping activeVersion) s

/-- Every header id in use is below the next serial value. -/
def idsBelow (s : RTStore) : Prop :=
  ∀ h ∈ s.feedMessages, h.id < s.nextFeedMessageId

end PTV

namespace PTV

/-! ### Rollback lemmas for the realtime processor -/

theorem processVehiclePositionsBulk_isSome (o : InsertStep → Bool) (tx : RTStore)
    (hid : Nat) (es : List FeedEntity) :
    (processVehiclePositionsBulk o tx hid es).isSome = !o InsertStep.entityBulk := by
  unfold processVehiclePositionsBulk
  by_cases h : o InsertStep.entityBulk <;> simp [h]

theorem processTripUpdatesBulk_isSome (o : InsertStep → Bool) (tx : RTStore)
    (hid : Nat) (es : List FeedEntity) :
    (processTripUpdatesBulk o tx hid es).isSome =
      (!o InsertStep.entityBulk && !o InsertStep.childBulk) := by
  unfold processTripUpdatesBulk
  by_cases h1 : o InsertStep.entityBulk <;>
    by_cases h2 : o InsertStep.childBulk <;> simp [h1, h2]

theorem processServiceAlertsBulk_isSome (o : InsertStep → Bool) (tx : RTStore)
    (hid : Nat) (es : List FeedEntity) :
    (processServiceAlertsBulk o tx hid es).isSome =
      (!o InsertStep.entityBulk && !o InsertStep.childBulk) := by
  unfold processServiceAlertsBulk
  by_cases h1 : o InsertStep.entityBulk <;>
    by_cases h2 : o InsertStep.childBulk <;> simp [h1, h2]

/-- Whether the entity phase succeeds depends only on the feed type and the
    failure oracle, not on the store or header id. -/
theorem processEntities_isSome (o : InsertStep → Bool) (tx : RTStore) (hid : Nat)
    (ft : String) (es : List FeedEntity) :
    (processEntities o tx hid ft es).isSome =
      (if ft = "vehicle_positions" then !o InsertStep.entityBulk
       else if ft = "trip_updates" then (!o InsertStep.entityBulk && !o InsertStep.childBulk)
       else if ft = "service_alerts" then (!o InsertStep.entityBulk && !o InsertStep.childBulk)
       else false) := by
  unfold processEntities
  by_cases h1 : ft = "vehicle_positions"
  · simp [h1, processVehiclePositionsBulk_isSome]
  · by_cases h2 : ft = "trip_updates"
    · simp [h1, h2, processTripUpdatesBulk_isSome]
    · by_cases h3 : ft = "service_alerts"
      · simp [h1, h2, h3, processServiceAlertsBulk_isSome]
      · simp [h1, h2, h3]

theorem finishTx_error_fst (o : InsertStep → Bool) (s : RTStore)
    (res : Option RTStore) (h : (finishTx o s res).2.isSome) :
    (finishTx o s res).1 = s := by
  unfold finishTx at h ⊢
  cases res with
  | none => rfl
  | some tx2 =>
    by_cases hc : o InsertStep.txCommit
    · simp [hc]
    · simp [hc] at h

theorem finishTx_snd_congr (o : InsertStep → Bool) (s s' : RTStore)
    (res res' : Option RTStore) (h : res.isSome = res'.isSome) :
    (finishTx o s res).2 = (finishTx o s' res').2 := by
  cases res with
  | none =>
    cases res' with
    | none => rfl
    | some tx2 => simp at h
  | some tx2 =>
    cases res' with
    | none => simp at h
    | some tx2' =>
      unfold finishTx
      by_cases hc : o InsertStep.txCommit <;> simp [hc]

/-- A processing error never changes the store: the transaction is rolled
    back whole. -/
theorem processFeedMessage_error_rollback (sm : String → Option Nat)
    (ver : Option Nat) (o : InsertStep → Bool) (s : RTStore) (src ft : String)
    (msg : FeedMsg) (t : Int) :
    (processFeedMessage sm ver o s src ft msg t).2.isSome →
      (processFeedMessage sm ver o s src ft msg t).1 = s := by
  unfold processFeedMessage
  cases sm src with
  | none => intro _; rfl
  | some sid =>
    cases ver with
    | none => intro _; rfl
    | some vid =>
      by_cases hh : o InsertStep.headerIns
      · simp [hh]
      · simp only [if_neg hh]
        intro herr
        exact finishTx_error_fst o s _ herr

/-- Whether (and how) `processFeedMessage` fails does not depend on the
    store it runs against. -/
theorem processFeedMessage_snd_indep (sm : String → Option Nat)
    (ver : Option Nat) (o : InsertStep → Bool) (s s' : RTStore) (src ft : String)
    (msg : FeedMsg) (t t' : Int) :
    (processFeedMessage sm ver o s src ft msg t).2 =
      (processFeedMessage sm ver o s' src ft msg t').2 := by
  unfold processFeedMessage
  cases sm src with
  | none => rfl
  | some sid =>
    cases ver with
    | none => rfl
    | some vid =>
      by_cases hh : o InsertStep.headerIns
      · simp [hh]
      · simp only [if_neg hh]
        apply finishTx_snd_congr
        rw [processEntities_isSome, processEntities_isSome]

end PTV

namespace PTV

/-- C3: for every realtime message, if any step of `processFeedMessage`
    fails — header insert, per-feed-type entity bulk insert, child-row
    inserts, or commit (all failure patterns ranged over by the oracle) —
    the transaction is rolled back whole: the store afterwards is exactly
    the store before, and in particular no header carrying the id allocated
    to this message (and hence no descendant row referencing it) exists;
    the drainer skips the failed message and processes the remaining queue
    exactly as if the message had not been there. -/
theorem processor_rollback_and_drainer_continues
    (sm : String → Option Nat) (ver : Option Nat) (o : InsertStep → Bool)
    (s : RTStore) (src ft : String) (msg : FeedMsg) (t : Int)
    (pre post : List DrainItem) (item : DrainItem) (m : FeedMsg) :
    ((processFeedMessage sm ver o s src ft msg t).2.isSome →
      (processFeedMessage sm ver o s src ft msg t).1 = s) ∧
    (idsBelow s → (processFeedMessage sm ver o s src ft msg t).2.isSome →
      ∀ h ∈ (processFeedMessage sm ver o s src ft msg t).1.feedMessages,
        h.id ≠ s.nextFeedMessageId) ∧
    (item.isError = false → item.message = some m →
      (processFeedMessage sm ver item.oracle emptyRT item.endpointSource
          item.feedType m item.receivedAt).2.isSome →
      processFeedResults sm ver (pre ++ item :: post) s =
        processFeedResults sm ver (pre ++ post) s) := by
  refine ⟨processFeedMessage_error_rollback sm ver o s src ft msg t, ?_, ?_⟩
  · intro hbelow herr h hmem
    rw [processFeedMessage_error_rollback sm ver o s src ft msg t herr] at hmem
    have := hbelow h hmem
    omega
  · intro hne hmsg herr
    unfold processFeedResults
    rw [List.foldl_append, List.foldl_cons, List.foldl_append]
    congr 1
    generalize List.foldl (drainStep sm ver) s pre = t0
    unfold drainStep
    rw [if_neg (by simp [hne]), hmsg]
    show (processFeedMessage sm ver item.oracle t0 item.endpointSource
      item.feedType m item.receivedAt).1 = t0
    apply processFeedMessage_error_rollback
    rw [processFeedMessage_snd_indep sm ver item.oracle t0 emptyRT
      item.endpointSource item.feedType m item.receivedAt item.receivedAt]
    exact herr

def c3SourceMap : String → Option Nat :=
  fun src => if src = "metro-train" then some 1 else none

def c3Msg : FeedMsg :=
  { timestamp := 50
    entities := [{ entity_id := "e1"
                   vehicle := some { position := some (), trip := none }
                   tripUpdate := none, alert := none }] }

/-- A dequeued result whose processing fails at the header insert. -/
def c3Item : DrainItem :=
  { endpointSource := "metro-train", feedType := "vehicle_positions"
    message := some c3Msg, isError := false
    oracle := fun _ => true, receivedAt := 60 }

/-- Witness for `processor_rollback_and_drainer_continues`: a batch
    containing only a failing message leaves the store untouched. -/
theorem processor_rollback_and_drainer_continues_witness :
    processFeedResults c3SourceMap (some 1) ([] ++ c3Item :: []) emptyRT =
      processFeedResults c3SourceMap (some 1) ([] ++ []) emptyRT :=
  (processor_rollback_and_drainer_continues c3SourceMap (some 1) (fun _ => true)
      emptyRT "metro-train" "vehicle_positions" c3Msg 60 [] [] c3Item c3Msg).2.2
    rfl rfl (by decide)

end PTV

namespace PTV

/-! ## Realtime retention (`performCleanup`, processor.go lines 822-848)

One statement: `DELETE FROM gtfs_rt.feed_messages WHERE received_at <
NOW() - INTERVAL '15 minutes'`.  The realtime schema declares every child
foreign key `ON DELETE CASCADE` (001_realtime_tables.sql), so deleting a
header also removes its vehicle positions, trip updates and alerts, the
stop-time updates of those trip updates, and the active periods, informed
entities and translations of those alerts. -/

def performCleanup (s : RTStore) (now : Int) : RTStore :=
  let delHdr : FeedMessageRow → Bool := fun h => decide (h.received_at < now - 15 * 60)
  let deletedIds : List Nat := (s.feedMessages.filter delHdr).map (·.id)
  let delTu : TripUpdateRow → Bool := fun r => deletedIds.any (fun i => i = r.feed_message_id)
  let deletedTuIds : List Nat := (s.tripUpdates.filter delTu).map (·.trip_update_id)
  let delAlert : AlertRow → Bool := fun r => deletedIds.any (fun i => i = r.feed_message_id)
  let deletedAlertIds : List Nat := (s.alerts.filter delAlert).map (·.alert_id)
  { s with
    feedMessages := s.feedMessages.filter (fun h => !delHdr h)
    vehiclePositions := s.vehiclePositions.filter
      (fun r => !deletedIds.any (fun i => i = r.feed_message_id))
    tripUpdates := s.tripUpdates.filter (fun r => !delTu r)
    stopTimeUpdates := s.stopTimeUpdates.filter
      (fun r => !deletedTuIds.any (fun i => i = r.trip_update_id))
    alerts := s.alerts.filter (fun r => !delAlert r)
    alertActivePeriods := s.alertActivePeriods.filter
      (fun r => !deletedAlertIds.any (fun i => i = r.alert_id))
    alertInformedEntities := s.alertInformedEntities.filter
      (fun r => !deletedAlertIds.any (fun i => i = r.alert_id))
    alertTranslations := s.alertTranslations.filter
      (fun r => !deletedAlertIds.any (fun i => i = r.alert_id)) }

/-- Referential well-formedness of the realtime store: serial ids are
    unique per table and every child row's parent exists (the FK
    constraints of the schema). -/
def rtWellFormed (s : RTStore) : Prop :=
  (s.feedMessages.map (·.id)).Nodup ∧
  (s.tripUpdates.map (·.trip_update_id)).Nodup ∧
  (s.alerts.map (·.alert_id)).Nodup ∧
  (∀ r ∈ s.vehiclePositions, ∃ h ∈ s.feedMessages, h.id = r.feed_message_id) ∧
  (∀ r ∈ s.tripUpdates, ∃ h ∈ s.feedMessages, h.id = r.feed_message_id) ∧
  (∀ r ∈ s.alerts, ∃ h ∈ s.feedMessages, h.id = r.feed_message_id) ∧
  (∀ r ∈ s.stopTimeUpdates, ∃ p ∈ s.tripUpdates, p.trip_update_id = r.trip_update_id) ∧
  (∀ r ∈ s.alertActivePeriods, ∃ a ∈ s.alerts, a.alert_id = r.alert_id) ∧
  (∀ r ∈ s.alertInformedEntities, ∃ a ∈ s.alerts, a.alert_id = r.alert_id) ∧
  (∀ r ∈ s.alertTranslations, ∃ a ∈ s.alerts, a.alert_id = r.alert_id)

instance (s : RTStore) : Decidable (rtWellFormed s) := by
  unfold rtWellFormed
  infer_instance

/-- Cascade deletion keeps parents of kept children: if a child survives
    (its parent id is not among the ids of the deleted parents) and its
    parent existed, then its parent survives too. -/
theorem cascade_keeps_parent {α β : Type} (parents : List α) (delP : α → Bool)
    (pid : α → Nat) (children : List β) (cref : β → Nat) (c : β)
    (hc : c ∈ children.filter
      (fun x => !((parents.filter delP).map pid).any (fun i => i = cref x)))
    (hparent : ∃ p ∈ parents, pid p = cref c) :
    ∃ p ∈ parents.filter (fun p => !delP p), pid p = cref c := by
  rcases List.mem_filter.mp hc with ⟨_, hcond⟩
  rcases hparent with ⟨p, hp, hpid⟩
  by_cases hdel : delP p
  · exfalso
    have hbad : pid p ∈ (parents.filter delP).map pid :=
      List.mem_map_of_mem _ (List.mem_filter.mpr ⟨hp, hdel⟩)
    rw [Bool.not_eq_true', List.any_eq_false] at hcond
    exact absurd hpid (by simpa using hcond _ hbad)
  · exact ⟨p, List.mem_filter.mpr ⟨hp, by simp [hdel]⟩, hpid⟩

end PTV

namespace PTV

/-- C9: after one retention run at time `now` with the code's 15-minute
    window, no feed-message header older than `now - 15` minutes remains,
    the surviving headers are exactly the original rows within the window
    (unchanged), and the store is still referentially well-formed — in
    particular no orphan descendant rows exist, because deleting a header
    cascades to all of its descendants. -/
theorem performCleanup_retention (s : RTStore) (now : Int)
    (hwf : rtWellFormed s) :
    (∀ h ∈ (performCleanup s now).feedMessages, now - 15 * 60 ≤ h.received_at) ∧
    (∀ h : FeedMessageRow,
      h ∈ (performCleanup s now).feedMessages ↔
        h ∈ s.feedMessages ∧ now - 15 * 60 ≤ h.received_at) ∧
    rtWellFormed (performCleanup s now) := by
  obtain ⟨hn1, hn2, hn3, hvp, htu, hal, hstu, hap, hie, htr⟩ := hwf
  have hmemiff : ∀ h : FeedMessageRow,
      h ∈ (performCleanup s now).feedMessages ↔
        h ∈ s.feedMessages ∧ now - 15 * 60 ≤ h.received_at := by
    intro h
    simp only [performCleanup, List.mem_filter, Bool.not_eq_true',
      decide_eq_false_iff_not]
    constructor
    · rintro ⟨hm, hc⟩
      exact ⟨hm, by omega⟩
    · rintro ⟨hm, hc⟩
      exact ⟨hm, by omega⟩
  refine ⟨fun h hm => ((hmemiff h).mp hm).2, hmemiff, ?_, ?_, ?_, ?_, ?_, ?_, ?_, ?_, ?_, ?_⟩
  · have hsub : (performCleanup s now).feedMessages.Sublist s.feedMessages := by
      simp only [performCleanup]
      exact List.filter_sublist _
    exact List.Nodup.sublist (hsub.map _) hn1
  · have hsub : (performCleanup s now).tripUpdates.Sublist s.tripUpdates := by
      simp only [performCleanup]
      exact List.filter_sublist _
    exact List.Nodup.sublist (hsub.map _) hn2
  · have hsub : (performCleanup s now).alerts.Sublist s.alerts := by
      simp only [performCleanup]
      exact List.filter_sublist _
    exact List.Nodup.sublist (hsub.map _) hn3
  · simp only [performCleanup]
    intro r hr
    exact cascade_keeps_parent _ _ _ _ _ r hr (hvp r (List.mem_filter.mp hr).1)
  · simp only [performCleanup]
    intro r hr
    exact cascade_keeps_parent _ _ _ _ _ r hr (htu r (List.mem_filter.mp hr).1)
  · simp only [performCleanup]
    intro r hr
    exact cascade_keeps_parent _ _ _ _ _ r hr (hal r (List.mem_filter.mp hr).1)
  · simp only [performCleanup]
    intro r hr
    exact cascade_keeps_parent _ _ _ _ _ r hr (hstu r (List.mem_filter.mp hr).1)
  · simp only [performCleanup]
    intro r hr
    exact cascade_keeps_parent _ _ _ _ _ r hr (hap r (List.mem_filter.mp hr).1)
  · simp only [performCleanup]
    intro r hr
    exact cascade_keeps_parent _ _ _ _ _ r hr (hie r (List.mem_filter.mp hr).1)
  · simp only [performCleanup]
    intro r hr
    exact cascade_keeps_parent _ _ _ _ _ r hr (htr r (List.mem_filter.mp hr).1)

/-- The retention scenario of the spec: headers received 20, 10 and 1
    minutes ago (relative to `now = 0`), the oldest with a vehicle
    position, a trip update and a stop-time update hanging off it. -/
def c9Store : RTStore :=
  { nextFeedMessageId := 4, nextTripUpdateId := 1, nextAlertId := 0
    feedMessages :=
      [ { id := 1, timestamp := -1200, received_at := -1200, source_id := 1,
          version_id := 1, feed_type := "vehicle_positions" },
        { id := 2, timestamp := -600, received_at := -600, source_id := 1,
          version_id := 1, feed_type := "trip_updates" },
        { id := 3, timestamp := -60, received_at := -60, source_id := 1,
          version_id := 1, feed_type := "vehicle_positions" } ]
    vehiclePositions :=
      [ { feed_message_id := 1, entity_id := "a" },
        { feed_message_id := 3, entity_id := "b" } ]
    tripUpdates :=
      [ { trip_update_id := 0, feed_message_id := 1, entity_id := "a",
          trip_id := "t" } ]
    stopTimeUpdates := [ { trip_update_id := 0 } ]
    alerts := [], alertActivePeriods := []
    alertInformedEntities := [], alertTranslations := [] }

/-- Witness for `performCleanup_retention` at the concrete scenario. -/
theorem performCleanup_retention_witness :
    (∀ h ∈ (performCleanup c9Store 0).feedMessages,
      (0 : Int) - 15 * 60 ≤ h.received_at) ∧
      rtWellFormed (performCleanup c9Store 0) :=
  ⟨(performCleanup_retention c9Store 0 (by decide)).1,
   (performCleanup_retention c9Store 0 (by decide)).2.2⟩

end PTV

namespace PTV

/-! ## GTFS time conversion (realtime processor.go `parseGTFSTime` vs the
static importer's `parseGTFSTime`)

The realtime processor splits `HH:MM:SS` on `:`, `strconv.Atoi`s the three
components and returns `int32(hours*3600 + minutes*60 + seconds)` — hours
≥ 24 are fine; the empty string becomes NULL.  The static importer instead
calls `time.Parse("2006-01-02 15:04:05", "2006-01-02 " + timeStr)` after
the same 3-part split: the layout's hour field accepts one or two digits
with value at most 23 ("hour out of range" otherwise), minute and second
are exactly two digits at most 59, so hours ≥ 24 FAIL and `OnStopTime`
stores NULL (the `sql.NullTime` stays invalid).  `strconv.Atoi`'s int64
range check cannot trigger on the components considered and is not
modelled. -/

/-- `strings.Split(s, ":")` on the character list of `s`. -/
def splitOnColon : List Char → List (List Char)
  | [] => [[]]
  | c :: rest =>
    let r := splitOnColon rest
    if c = ':' then [] :: r
    else
      match r with
      | [] => [[c]]
      | p :: ps => (c :: p) :: ps

/-- Digit value of a character, `none` for non-digits. -/
def digitVal (c : Char) : Option Nat :=
  if c.isDigit then some (c.toNat - 48) else none

def atoiNatGo : List Char → Nat → Option Nat
  | [], acc => some acc
  | c :: rest, acc =>
    match digitVal c with
    | some d => atoiNatGo rest (acc * 10 + d)
    | none => none

/-- An unsigned digit run (must be nonempty, all digits). -/
def atoiNat : List Char → Option Nat
  | [] => none
  | cs => atoiNatGo cs 0

/-- `strconv.Atoi`: optional sign followed by digits. -/
def partAtoi (cs : List Char) : Option Int :=
  match cs with
  | [] => none
  | c :: rest =>
    if c = '+' then (atoiNat rest).map (fun n => (n : Int))
    else if c = '-' then (atoiNat rest).map (fun n => -(n : Int))
    else (atoiNat (c :: rest)).map (fun n => (n : Int))

/-- Go `int32` conversion with two's-complement wrap. -/
def toInt32 (n : Int) : Int := (n + 2 ^ 31) % 2 ^ 32 - 2 ^ 31

/-- The error/value combination of the realtime `parseGTFSTime` after the
    three `strconv.Atoi` calls. -/
def rtCombine (oh om os : Option Int) : Except String (Option Int) :=
  match oh with
  | none => Except.error "invalid hours"
  | some h =>
    match om with
    | none => Except.error "invalid minutes"
    | some m =>
      match os with
      | none => Except.error "invalid seconds"
      | some sec => Except.ok (some (toInt32 (h * 3600 + m * 60 + sec)))

/-- The split-arity check (`len(parts) != 3`) plus component parsing of the
    realtime `parseGTFSTime`. -/
def rtFromParts : List (List Char) → Except String (Option Int)
  | [hs, ms, ss] => rtCombine (partAtoi hs) (partAtoi ms) (partAtoi ss)
  | _ => Except.error "invalid time format"

/-- The realtime `parseGTFSTime` (processor.go lines 768-795): `ok none`
    is the `("", nil, nil)` null case, `error` the parse failures. -/
def rtParseGTFSTime (timeStr : String) : Except String (Option Int) :=
  if timeStr = "" then Except.ok none
  else rtFromParts (splitOnColon timeStr.toList)

/-- The hour field of `time.Parse`'s layout `15`: one or two digits, at
    most 23. -/
def goParseHour : List Char → Option Nat
  | [c] => digitVal c
  | [c1, c2] =>
    match digitVal c1, digitVal c2 with
    | some d1, some d2 =>
      if d1 * 10 + d2 ≤ 23 then some (d1 * 10 + d2) else none
    | _, _ => none
  | _ => none

/-- A zero-padded two-digit field (`04` / `05`): exactly two digits, at
    most `hi`. -/
def goParse2 (hi : Nat) : List Char → Option Nat
  | [c1, c2] =>
    match digitVal c1, digitVal c2 with
    | some d1, some d2 =>
      if d1 * 10 + d2 ≤ hi then some (d1 * 10 + d2) else none
    | _, _ => none
  | _ => none

/-- Combination of the three `time.Parse` fields into seconds in the day. -/
def importerCombine (oh om os : Option Nat) : Option Nat :=
  match oh with
  | none => none
  | some h =>
    match om with
    | none => none
    | some m =>
      match os with
      | none => none
      | some sec => some (h * 3600 + m * 60 + sec)

def importerFromParts : List (List Char) → Option Nat
  | [hs, ms, ss] => importerCombine (goParseHour hs) (goParse2 59 ms) (goParse2 59 ss)
  | _ => none

/-- The static importer's `parseGTFSTime` (importer.go lines 358-378):
    3-part split, then `time.Parse` on the fixed base date; the result is
    the parsed wall-clock time as seconds in the day. -/
def importerParseGTFSTime (timeStr : String) : Option Nat :=
  importerFromParts (splitOnColon timeStr.toList)

/-- The arrival (or departure) value `OnStopTime` hands to the stop-times
    bulk inserter (importer.go lines 137-149): empty string → NULL, parse
    error → NULL, otherwise the parsed time. -/
def importerArrivalValue (timeStr : String) : Option Nat :=
  if timeStr = "" then none
  else importerParseGTFSTime timeStr

instance {ε α : Type} [DecidableEq ε] [DecidableEq α] :
    DecidableEq (Except ε α) := fun a b =>
  match a, b with
  | Except.ok x, Except.ok y =>
    if h : x = y then isTrue (by rw [h])
    else isFalse (by intro hc; cases hc; exact h rfl)
  | Except.error x, Except.error y =>
    if h : x = y then isTrue (by rw [h])
    else isFalse (by intro hc; cases hc; exact h rfl)
  | Except.ok _, Except.error _ => isFalse (by intro hc; cases hc)
  | Except.error _, Except.ok _ => isFalse (by intro hc; cases hc)

/-- C6 counterexample: on `25:10:00` the realtime conversion succeeds with
    25·3600 + 10·60 = 90600 seconds, but the static import path's
    conversion FAILS (`time.Parse` rejects hour 25) and the stored
    stop-time value is NULL, not 90600; an in-range time shows the static
    path otherwise working. -/
theorem static_import_time_conversion_fails_past_24h :
    rtParseGTFSTime "25:10:00" = Except.ok (some 90600) ∧
    importerArrivalValue "25:10:00" = none ∧
    importerArrivalValue "10:00:00" = some 36000 := by
  decide

/-- Canonical digit characters used to build `HH:MM:SS` strings. -/
def digitChar : Nat → Char
  | 0 => '0' | 1 => '1' | 2 => '2' | 3 => '3' | 4 => '4'
  | 5 => '5' | 6 => '6' | 7 => '7' | 8 => '8' | 9 => '9'
  | _ => '*'

/-- Two-digit zero-padded rendering of `n < 100`. -/
def pad2 (n : Nat) : List Char := [digitChar (n / 10), digitChar (n % 10)]

/-- The shape `HH:MM:SS` with two-digit fields. -/
def gtfsTimeString (h m s : Nat) : String :=
  String.mk (pad2 h ++ ':' :: pad2 m ++ ':' :: pad2 s)

theorem digitVal_digitChar (d : Nat) (hd : d < 10) :
    digitVal (digitChar d) = some d := by
  interval_cases d <;> decide

theorem digitChar_ne_colon (d : Nat) (hd : d < 10) : digitChar d ≠ ':' := by
  interval_cases d <;> decide

theorem digitChar_ne_plus (d : Nat) (hd : d < 10) : digitChar d ≠ '+' := by
  interval_cases d <;> decide

theorem digitChar_ne_minus (d : Nat) (hd : d < 10) : digitChar d ≠ '-' := by
  interval_cases d <;> decide

theorem splitOnColon_canonical (a b c d e f : Char)
    (ha : a ≠ ':') (hb : b ≠ ':') (hc : c ≠ ':') (hd : d ≠ ':')
    (he : e ≠ ':') (hf : f ≠ ':') :
    splitOnColon [a, b, ':', c, d, ':', e, f] = [[a, b], [c, d], [e, f]] := by
  simp [splitOnColon, ha, hb, hc, hd, he, hf]

theorem atoiNat_pad2 (n : Nat) (hn : n < 100) :
    atoiNat (pad2 n) = some n := by
  have h1 : n / 10 < 10 := by omega
  have h2 : n % 10 < 10 := by omega
  simp [pad2, atoiNat, atoiNatGo, digitVal_digitChar _ h1, digitVal_digitChar _ h2]
  omega

theorem partAtoi_pad2 (n : Nat) (hn : n < 100) :
    partAtoi (pad2 n) = some (n : Int) := by
  have h1 : n / 10 < 10 := by omega
  rw [pad2, partAtoi]
  rw [if_neg (digitChar_ne_plus _ h1), if_neg (digitChar_ne_minus _ h1)]
  rw [show [digitChar (n / 10), digitChar (n % 10)] = pad2 n from rfl,
    atoiNat_pad2 n hn]
  rfl

theorem goParseHour_pad2_ge24 (h : Nat) (h1 : 24 ≤ h) (h2 : h ≤ 99) :
    goParseHour (pad2 h) = none := by
  have hd1 : h / 10 < 10 := by omega
  have hd2 : h % 10 < 10 := by omega
  rw [pad2, goParseHour, digitVal_digitChar _ hd1, digitVal_digitChar _ hd2]
  simp only
  rw [if_neg (by omega)]

theorem toInt32_eq_self (n : Int) (h1 : 0 ≤ n) (h2 : n < 2 ^ 31) :
    toInt32 n = n := by
  unfold toInt32
  omega

theorem gtfsTimeString_ne_empty (h m s : Nat) : gtfsTimeString h m s ≠ "" := by
  intro hc
  have : (gtfsTimeString h m s).data = ("" : String).data := by rw [hc]
  simp [gtfsTimeString, pad2] at this

theorem rtFromParts_three (a b c : List Char) :
    rtFromParts [a, b, c] = rtCombine (partAtoi a) (partAtoi b) (partAtoi c) := rfl

theorem rtCombine_some (h m sec : Int) :
    rtCombine (some h) (some m) (some sec) =
      Except.ok (some (toInt32 (h * 3600 + m * 60 + sec))) := rfl

theorem importerFromParts_three (a b c : List Char) :
    importerFromParts [a, b, c] =
      importerCombine (goParseHour a) (goParse2 59 b) (goParse2 59 c) := rfl

theorem importerCombine_hourFail (om os : Option Nat) :
    importerCombine none om os = none := rfl

/-- C6 (amended): for every time of shape `HH:MM:SS` with hours ≥ 24 (and
    two-digit fields), the REALTIME conversion succeeds and yields
    hours·3600 + minutes·60 + seconds as an `int32` (no clamping), while
    the STATIC stop-times import path's conversion fails — `time.Parse` on
    the fixed base date rejects hours ≥ 24 — so the stored static value is
    NULL; empty strings become NULL on both paths. -/
theorem gtfs_time_parsing_per_path (h m s : Nat)
    (hh : 24 ≤ h) (hh2 : h ≤ 99) (hm : m ≤ 59) (hs : s ≤ 59) :
    rtParseGTFSTime (gtfsTimeString h m s) =
      Except.ok (some ((h * 3600 + m * 60 + s : Nat) : Int)) ∧
    importerArrivalValue (gtfsTimeString h m s) = none ∧
    rtParseGTFSTime "" = Except.ok none ∧
    importerArrivalValue "" = none := by
  have hd1 : h / 10 < 10 := by omega
  have hd2 : h % 10 < 10 := by omega
  have hd3 : m / 10 < 10 := by omega
  have hd4 : m % 10 < 10 := by omega
  have hd5 : s / 10 < 10 := by omega
  have hd6 : s % 10 < 10 := by omega
  have hsplit : splitOnColon (gtfsTimeString h m s).toList =
      [pad2 h, pad2 m, pad2 s] := by
    show splitOnColon (pad2 h ++ ':' :: pad2 m ++ ':' :: pad2 s) = _
    rw [pad2, pad2, pad2]
    exact splitOnColon_canonical _ _ _ _ _ _
      (digitChar_ne_colon _ hd1) (digitChar_ne_colon _ hd2)
      (digitChar_ne_colon _ hd3) (digitChar_ne_colon _ hd4)
      (digitChar_ne_colon _ hd5) (digitChar_ne_colon _ hd6)
  refine ⟨?_, ?_, rfl, rfl⟩
  · rw [rtParseGTFSTime, if_neg (gtfsTimeString_ne_empty h m s), hsplit,
      rtFromParts_three, partAtoi_pad2 h (by omega), partAtoi_pad2 m (by omega),
      partAtoi_pad2 s (by omega), rtCombine_some]
    rw [show ((h : Int) * 3600 + (m : Int) * 60 + (s : Int)) =
        ((h * 3600 + m * 60 + s : Nat) : Int) by push_cast; ring]
    rw [toInt32_eq_self _ (by positivity) (by
      have hb : (h * 3600 + m * 60 + s : Nat) < 2 ^ 31 := by omega
      exact_mod_cast hb)]
  · rw [importerArrivalValue, if_neg (gtfsTimeString_ne_empty h m s),
      importerParseGTFSTime, hsplit, importerFromParts_three,
      goParseHour_pad2_ge24 h hh hh2, importerCombine_hourFail]

/-- Witness for `gtfs_time_parsing_per_path` at `25:10:00`. -/
theorem gtfs_time_parsing_per_path_witness :
    rtParseGTFSTime (gtfsTimeString 25 10 0) =
      Except.ok (some ((25 * 3600 + 10 * 60 + 0 : Nat) : Int)) ∧
    importerArrivalValue (gtfsTimeString 25 10 0) = none :=
  ⟨(gtfs_time_parsing_per_path 25 10 0 (by decide) (by decide) (by decide)
      (by decide)).1,
   (gtfs_time_parsing_per_path 25 10 0 (by decide) (by decide) (by decide)
      (by decide)).2.1⟩

end PTV

namespace PTV

/-! ## Stop coordinates (parser `getFloat` + importer `OnStop`)

`getFloat` returns the parsed float of a CSV field, or the default (the
importer passes 0) when the field is missing, empty or unparseable.
`OnStop` inserts `stop_lat` / `stop_lon` as
`sql.NullFloat64{Float64: v, Valid: v != 0}`: the column is NULL exactly
when the value is 0.  Coordinates are modelled as rationals (decimal
strings are exact; `ParseFloat`'s exponent/inf forms are not needed for
the inputs considered). -/

/-- `strings.TrimSpace`. -/
def trimSpace (s : String) : String :=
  String.mk
    (((s.toList.dropWhile Char.isWhitespace).reverse.dropWhile
      Char.isWhitespace).reverse)

/-- Parser `getString`: look the field up in the header map, return the
    trimmed cell when the column index is in range, `""` otherwise. -/
def getString (record : List String) (headerMap : String → Option Nat)
    (field : String) : String :=
  match headerMap field with
  | some idx => if idx < record.length then trimSpace (record.getD idx "") else ""
  | none => ""

/-- An unsigned decimal literal `digits[.digits]` as a rational. -/
def parseFloatCore (cs : List Char) : Option ℚ :=
  let ip := cs.takeWhile Char.isDigit
  let rest := cs.dropWhile Char.isDigit
  match rest with
  | [] => if ip.isEmpty then none else some ((digitsVal ip : ℚ))
  | '.' :: fp =>
    if fp.all Char.isDigit && !(ip.isEmpty && fp.isEmpty) then
      some ((digitsVal ip : ℚ) + (digitsVal fp : ℚ) / (10 ^ fp.length : ℚ))
    else none
  | _ => none

/-- `strconv.ParseFloat` on plain decimal notation. -/
def parseFloatQ (s : String) : Option ℚ :=
  match s.toList with
  | '+' :: rest => parseFloatCore rest
  | '-' :: rest => (parseFloatCore rest).map (fun q => -q)
  | cs => parseFloatCore cs

/-- Parser `getFloat` (parser.go lines 304-314): empty string or parse
    error yield the default value. -/
def getFloat (record : List String) (headerMap : String → Option Nat)
    (field : String) (defaultVal : ℚ) : ℚ :=
  let str := getString record headerMap field
  if str = "" then defaultVal
  else
    match parseFloatQ str with
    | none => defaultVal
    | some v => v

/-- The `stop_lat` column value `OnStop` inserts (importer.go line 66):
    NULL exactly when the parsed value is 0. -/
def insertedStopLat (record : List String) (headerMap : String → Option Nat) :
    Option ℚ :=
  let v := getFloat record headerMap "stop_lat" 0
  if v = 0 then none else some v

/-- The `stop_lon` column value `OnStop` inserts (importer.go line 67). -/
def insertedStopLon (record : List String) (headerMap : String → Option Nat) :
    Option ℚ :=
  let v := getFloat record headerMap "stop_lon" 0
  if v = 0 then none else some v

/-- Header map of a stops.txt whose only column is `stop_lat`. -/
def c10Map : String → Option Nat :=
  fun f => if f = "stop_lat" then some 0 else none

/-- C10: a stop_lat (resp. stop_lon) is stored as NULL exactly when the
    parsed value is 0, and a stored non-NULL coordinate is never 0; since
    `getFloat` returns 0 for a missing, empty or unparseable field, a stop
    legitimately at latitude exactly 0, an unparseable cell, an empty cell
    and a missing column are indistinguishable — all four store NULL. -/
theorem stop_zero_coordinate_stored_null
    (record : List String) (headerMap : String → Option Nat) :
    (insertedStopLat record headerMap = none ↔
      getFloat record headerMap "stop_lat" 0 = 0) ∧
    (insertedStopLon record headerMap = none ↔
      getFloat record headerMap "stop_lon" 0 = 0) ∧
    (∀ v, insertedStopLat record headerMap = some v → v ≠ 0) ∧
    (∀ v, insertedStopLon record headerMap = some v → v ≠ 0) ∧
    insertedStopLat ["0"] c10Map = none ∧
    insertedStopLat ["abc"] c10Map = none ∧
    insertedStopLat [""] c10Map = none ∧
    insertedStopLat ["0.0"] (fun _ => none) = none := by
  refine ⟨?_, ?_, ?_, ?_, rfl, rfl, rfl, rfl⟩
  · unfold insertedStopLat
    by_cases hv : getFloat record headerMap "stop_lat" 0 = 0 <;> simp [hv]
  · unfold insertedStopLon
    by_cases hv : getFloat record headerMap "stop_lon" 0 = 0 <;> simp [hv]
  · intro v hv
    unfold insertedStopLat at hv
    by_cases h0 : getFloat record headerMap "stop_lat" 0 = 0
    · simp [h0] at hv
    · simp only [if_neg h0] at hv
      cases hv
      exact h0
  · intro v hv
    unfold insertedStopLon at hv
    by_cases h0 : getFloat record headerMap "stop_lon" 0 = 0
    · simp [h0] at hv
    · simp only [if_neg h0] at hv
      cases hv
      exact h0

/-- Witness for `stop_zero_coordinate_stored_null`: the literal cell `0`
    stores NULL. -/
theorem stop_zero_coordinate_stored_null_witness :
    insertedStopLat ["0"] c10Map = none :=
  (stop_zero_coordinate_stored_null ["0"] c10Map).1.mpr rfl

end PTV
